import Mathlib

/-!
Verification development for the HEOS integration bridge
(`uc_intg_heos`: configuration store, coordinator, entity-readiness
state machine, player/remote entity adapters).

Each Python function relevant to the checked properties is shallowly
embedded as a total Lean function.  Fallible external calls (protocol
client, disk I/O) are passed in as explicit outcome parameters
(`Except`/`Bool` oracles); exception control flow becomes `Except` or
early-return branching, exactly mirroring the `try/except` structure of
the source.
-/

namespace HeosSpec

/-! ## Configuration store (src/uc_intg_heos/config.py) -/

/-- `HeosAccountConfig` dataclass: username, password, host. -/
structure HeosAccountConfig where
  username : String
  password : String
  host : String
deriving Repr, DecidableEq

/-- In-memory state of `HeosConfig`: `_account_config` and `_configured`. -/
structure ConfigState where
  account : Option HeosAccountConfig
  configured : Bool
deriving Repr, DecidableEq

/-- Contents of the persisted JSON file: `none` when the file is absent,
`some acc` when present with the optional `heos_account` section `acc`
(the constant `version` field carries no information and is omitted). -/
abbrev Disk := Option (Option HeosAccountConfig)

/-- `HeosConfig._save_config`: serializes the current state and writes it
atomically (temp file then rename), so a failed write leaves the previous
file intact.  The whole body is wrapped in `try/except Exception` that only
logs, so a write failure is swallowed and never propagated.  `write_ok`
is the outcome of the underlying file I/O. -/
def save_config (write_ok : Bool) (st : ConfigState) (disk : Disk) : Disk :=
  if write_ok then some st.account else disk

/-- `HeosConfig.set_heos_account`: replaces the in-memory account, marks the
store configured, calls `_save_config`, and returns `True`.  The surrounding
`try/except` can only return `False` if constructing the dataclass raises,
which cannot happen; since `_save_config` swallows I/O errors, the returned
`Bool` is `true` on every path. -/
def set_heos_account (username password host : String) (write_ok : Bool)
    (_st : ConfigState) (disk : Disk) : ConfigState × Disk × Bool :=
  let st' : ConfigState := { account := some ⟨username, password, host⟩, configured := true }
  let disk' := save_config write_ok st' disk
  (st', disk', true)

/-- `HeosConfig.update_host`: when an account is present, mutates only its
`host` field and calls `_save_config`; otherwise does nothing. -/
def update_host (new_host : String) (write_ok : Bool)
    (st : ConfigState) (disk : Disk) : ConfigState × Disk :=
  match st.account with
  | none => (st, disk)
  | some a =>
    let st' : ConfigState := { st with account := some { a with host := new_host } }
    (st', save_config write_ok st' disk)

/-! ## Coordinator account-data load (src/uc_intg_heos/coordinator.py) -/

/-- A music source as cached by the coordinator: display name and
availability flag. -/
structure MusicSource where
  name : String
  available : Bool
deriving Repr, DecidableEq

/-- The coordinator's account-data caches touched by
`_async_update_sources`: `_source_list`, `_music_sources`, `_favorites`
(index → favorite name), `_inputs` and `_playlists` (names). -/
structure CoordSources where
  source_list : List String
  music_sources : List (Nat × MusicSource)
  favorites : List (Nat × String)
  inputs : List String
  playlists : List String
deriving Repr, DecidableEq

/-- Outcomes of the four protocol fetches performed by
`_async_update_sources`, plus the `is_signed_in` flag that guards the
favorites fetch. -/
structure FetchEnv where
  signed_in : Bool
  music_res : Except Unit (List (Nat × MusicSource))
  fav_res : Except Unit (List (Nat × String))
  input_res : Except Unit (List String)
  playlist_res : Except Unit (List String)

/-- `HeosCoordinator._async_update_sources`: clears `_source_list`, then
fetches the four categories in sequence, each inside its own
`try/except`.  On success a category's cache is replaced and its names are
appended to `_source_list`.  On failure, favorites / inputs / playlists are
reset to empty, but the `except` arms for music sources only log — the
previous `_music_sources` cache is left in place.  Favorites are fetched
only when signed in; when not signed in the favorites cache is left
untouched.  Every arm catches `Exception`, so the load never raises
(totality of this function). -/
def async_update_sources (env : FetchEnv) (st : CoordSources) : CoordSources :=
  let st0 : CoordSources := { st with source_list := [] }
  let st1 : CoordSources :=
    match env.music_res with
    | .ok ms =>
        { st0 with music_sources := ms,
                   source_list := st0.source_list ++
                     ((ms.filter (fun p => p.2.available)).map (fun p => p.2.name)) }
    | .error _ => st0
  let st2 : CoordSources :=
    if env.signed_in then
      match env.fav_res with
      | .ok fs =>
          { st1 with favorites := fs,
                     source_list := st1.source_list ++ fs.map (fun p => p.2) }
      | .error _ => { st1 with favorites := [] }
    else st1
  let st3 : CoordSources :=
    match env.input_res with
    | .ok inps =>
        { st2 with inputs := inps, source_list := st2.source_list ++ inps }
    | .error _ => { st2 with inputs := [] }
  match env.playlist_res with
  | .ok ps => { st3 with playlists := ps, source_list := st3.source_list ++ ps }
  | .error _ => { st3 with playlists := [] }

/-! ## Source-list accessor (src/uc_intg_heos/coordinator.py, `get_source_list`)

`get_source_list` executes `return list(self._source_list)`.  To make the
aliasing behaviour observable we model Python list objects through a small
heap: `cells` holds the contents of every allocated list object, and a
reference is an index into it.  The coordinator's `_source_list` is the
object at some reference `r`; `list(...)` allocates a fresh object with
copied contents. -/

structure ListHeap where
  cells : List (List String)
deriving Repr, DecidableEq

/-- Read a list object's contents. -/
def read_cell (σ : ListHeap) (r : Nat) : List String :=
  σ.cells.getD r []

/-- In-place mutation of a list object (what a caller could do to the value
returned by `get_source_list`). -/
def write_cell (σ : ListHeap) (r : Nat) (v : List String) : ListHeap :=
  ⟨σ.cells.set r v⟩

/-- `HeosCoordinator.get_source_list`: allocates a fresh list object whose
contents copy `_source_list` (held at reference `r`) and returns a
reference to the fresh object. -/
def get_source_list (σ : ListHeap) (r : Nat) : ListHeap × Nat :=
  (⟨σ.cells ++ [read_cell σ r]⟩, σ.cells.length)

/-! ## Entity-readiness state machine (src/uc_intg_heos/driver.py) -/

/-- An entity registered with the host platform: a Player (media player)
entity or a Remote entity, keyed by the HEOS player id. -/
inductive EntityRef
  | media (pid : Nat)
  | remoteOf (pid : Nat)
deriving Repr, DecidableEq

/-- The driver's module-level state: `_config.is_configured()`,
`_entities_ready`, the `_media_players` / `_remotes` dictionaries (keys),
`api.available_entities` / `api.configured_entities`, and `_coordinator`
(`some ()` when a coordinator object is held, `none` after it is
discarded). -/
structure DriverState where
  configured : Bool
  entities_ready : Bool
  media_players : List Nat
  remotes : List Nat
  available_entities : List EntityRef
  configured_entities : List EntityRef
  coordinator : Option Unit
deriving Repr, DecidableEq

/-- Oracle for one initialization attempt: whether
`HeosCoordinator.async_setup` succeeds, the player ids the coordinator
enumerates, whether `HeosMediaPlayer.initialize` succeeds per player, and
whether the per-player remote-creation block in
`_create_intelligent_remotes` succeeds per player.  (In the source that
block can in fact never succeed: the `HeosRemote(...)` call passes keyword
arguments `api`, `capabilities`, `heos`, `ui_pages`, `simple_commands`
that `HeosRemote.__init__(self, heos_player, device_name)` does not
accept, so it raises `TypeError` on every call; the oracle keeps the model
general.) -/
structure InitEnv where
  setup_ok : Bool
  players : List Nat
  media_init_ok : Nat → Bool
  remote_create_ok : Nat → Bool

/-- Outcome of one `_initialize_entities` invocation: the early returns
(`entities_ready` already true / not configured / zero players), an
exception propagated out of the `try` block, or full success. -/
inductive InitOutcome
  | skipped_ready
  | skipped_unconfigured
  | no_players
  | raised
  | ok
deriving Repr, DecidableEq

/-- The media-player loop of `_initialize_entities`: for each player,
construct a `HeosMediaPlayer`, run `initialize()` (which may raise), then
add it to `_media_players`, `api.available_entities` and
`api.configured_entities`.  A raise aborts the loop, keeping the entities
registered so far (the `except` clause does not remove them). -/
def register_media_players (env : InitEnv) :
    List Nat → DriverState → Except DriverState DriverState
  | [], s => .ok s
  | pid :: rest, s =>
      if env.media_init_ok pid then
        register_media_players env rest
          { s with media_players := s.media_players ++ [pid],
                   available_entities := s.available_entities ++ [.media pid],
                   configured_entities := s.configured_entities ++ [.media pid] }
      else .error s

/-- `_create_intelligent_remotes`: for each player, the whole
capability-detection / page-building / `HeosRemote(...)` / registration
block runs inside a per-player `try/except` that logs and continues
("Continue with other remotes even if one fails"), so a failure registers
nothing for that player and the loop moves on. -/
def create_intelligent_remotes (env : InitEnv) :
    List Nat → DriverState → DriverState
  | [], s => s
  | pid :: rest, s =>
      if env.remote_create_ok pid then
        create_intelligent_remotes env rest
          { s with remotes := s.remotes ++ [pid],
                   available_entities := s.available_entities ++ [.remoteOf pid],
                   configured_entities := s.configured_entities ++ [.remoteOf pid] }
      else
        create_intelligent_remotes env rest s

/-- `_initialize_entities`: the body of the `async with _initialization_lock`
block.  The lock serializes concurrent invocations, so two concurrent calls
are modelled as sequential composition of this function.  Mirrors the
source: early return when `_entities_ready` or unconfigured; clear
`api.available_entities`, `_media_players`, `_remotes` (note:
`api.configured_entities` is not cleared); create the coordinator and run
`async_setup` (failure takes the `except` branch: `_entities_ready = False`,
coordinator shut down and set to `None`, exception re-raised); early return
when zero players (no `except` branch, coordinator kept); register a media
player per player (a raise takes the `except` branch); when more than one
player, run `_create_intelligent_remotes`; finally set `_entities_ready`.
The data-availability wait loop before enumeration only polls caches that
are initialized to non-`None` values, so it exits immediately and has no
state effect. -/
def initialize_entities (env : InitEnv) (s : DriverState) :
    DriverState × InitOutcome :=
  if s.entities_ready then (s, .skipped_ready)
  else if ¬ s.configured then (s, .skipped_unconfigured)
  else
    let s1 : DriverState :=
      { s with available_entities := [], media_players := [], remotes := [],
               coordinator := some () }
    if ¬ env.setup_ok then
      ({ s1 with entities_ready := false, coordinator := none }, .raised)
    else if env.players.isEmpty then
      (s1, .no_players)
    else
      match register_media_players env env.players s1 with
      | .error s2 => ({ s2 with entities_ready := false, coordinator := none }, .raised)
      | .ok s2 =>
          let s3 := if env.players.length > 1 then
                      create_intelligent_remotes env env.players s2
                    else s2
          ({ s3 with entities_ready := true }, .ok)

/-! ## Name normalization helpers (Python string methods used by the
command builders: `.upper()`, `.replace(' ', '_')`, `.replace('-', '_')`;
for single-character patterns `str.replace` is a character map). -/

def py_upper (s : String) : String := ⟨s.data.map Char.toUpper⟩

def py_replace_char (a b : Char) (s : String) : String :=
  ⟨s.data.map (fun c => if c = a then b else c)⟩

/-- `name.upper().replace(' ', '_').replace('-', '_')`, the normalization
applied to player names for `GROUP_WITH_<name>` commands. -/
def group_safe_name (s : String) : String :=
  py_replace_char '-' '_' (py_replace_char ' ' '_' (py_upper s))

/-- `name.upper().replace(' ', '_')`, the normalization applied to input
and service names. -/
def upper_safe_name (s : String) : String :=
  py_replace_char ' ' '_' (py_upper s)

/-! ## Capability-driven command surface
(src/uc_intg_heos/driver.py, `_build_dynamic_simple_commands`) -/

/-- The capability dictionary produced by `_detect_device_capabilities`,
restricted to the fields the command builder reads: the `inputs` dict
(insertion-ordered name → availability), `supports_favorites`
(signed-in flag), `favorites_count`, `available_services`, and
`playlists_available`. -/
structure Capabilities where
  inputs : List (String × Bool)
  supports_favorites : Bool
  favorites_count : Nat
  available_services : List String
  playlists_available : Bool
deriving Repr, DecidableEq

/-- `_build_dynamic_simple_commands(player, capabilities, all_players)`:
base transport/volume/navigation/repeat/shuffle commands, then one
`INPUT_<NAME>` per available input, then (only with more than one player)
`LEAVE_GROUP`, `GROUP_ALL_SPEAKERS` and one `GROUP_WITH_<NAME>` per other
player, then `FAVORITE_1..min(count,10)` when signed in with favorites,
then one `SERVICE_<NAME>` per available service, then `PLAYLISTS` when
playlists exist, then `CLEAR_QUEUE`, `QUEUE_INFO`; in source order. -/
def build_dynamic_simple_commands (self_pid : Nat) (caps : Capabilities)
    (all_players : List (Nat × String)) : List String :=
  ["PLAY", "PAUSE", "STOP", "PLAY_PAUSE"]
  ++ ["VOLUME_UP", "VOLUME_DOWN", "MUTE_TOGGLE"]
  ++ ["NEXT", "PREVIOUS"]
  ++ ["REPEAT_OFF", "REPEAT_ALL", "REPEAT_ONE", "SHUFFLE_ON", "SHUFFLE_OFF"]
  ++ ((caps.inputs.filter (fun p => p.2)).map
        (fun p => "INPUT_" ++ upper_safe_name p.1))
  ++ (if all_players.length > 1 then
        ["LEAVE_GROUP", "GROUP_ALL_SPEAKERS"]
        ++ ((all_players.filter (fun q => q.1 ≠ self_pid)).map
              (fun q => "GROUP_WITH_" ++ group_safe_name q.2))
      else [])
  ++ (if caps.supports_favorites ∧ 0 < caps.favorites_count then
        (List.range' 1 (min caps.favorites_count 10)).map
          (fun i => "FAVORITE_" ++ toString i)
      else [])
  ++ (caps.available_services.map (fun s => "SERVICE_" ++ upper_safe_name s))
  ++ (if caps.playlists_available then ["PLAYLISTS"] else [])
  ++ ["CLEAR_QUEUE", "QUEUE_INFO"]

/-! ## Grouping command handler
(src/uc_intg_heos/remote.py, `_handle_grouping_commands_with_retry`) -/

/-- Error raised by the protocol `set_group` call: the specific
"processing previous command" busy error, or any other error. -/
inductive GroupErr
  | busy
  | other
deriving Repr, DecidableEq

/-- Observable behaviour of one `GROUP_WITH_<target>` handler run: how many
`set_group` calls were made, which backoff sleeps (in seconds) were
performed between attempts, and whether a `set_group` call completed
without error. -/
structure GroupingTrace where
  set_group_calls : Nat
  sleeps : List Nat
  succeeded : Bool
deriving Repr, DecidableEq

/-- `HeosRemote._handle_grouping_commands_with_retry(command)`: despite the
name, the body resolves the target player by normalized-name match and then
performs a single `await self._heos.set_group(...)` inside one
`try/except Exception` that logs and returns — there is no retry loop, no
backoff sleep, and the error (busy or otherwise) is swallowed.
`set_group_result n` is the outcome the protocol client would give the
`n`-th attempt (the body only ever consults attempt `0`). -/
def handle_grouping_commands_with_retry (target_name : String) (_self_pid : Nat)
    (players : List (Nat × String))
    (set_group_result : Nat → Except GroupErr Unit) : GroupingTrace :=
  match players.find? (fun p => group_safe_name p.2 == target_name) with
  | none => { set_group_calls := 0, sleeps := [], succeeded := false }
  | some _ =>
      match set_group_result 0 with
      | .ok _ => { set_group_calls := 1, sleeps := [], succeeded := true }
      | .error _ => { set_group_calls := 1, sleeps := [], succeeded := false }

/-! ## Command handlers and status mapping
(src/uc_intg_heos/remote.py `handle_cmd`, `_handle_input_commands`;
src/uc_intg_heos/media_player.py `_command_handler`) -/

/-- Failure mode of an underlying protocol call: `heos` is a
protocol-level `HeosError`, `generic` any other exception. -/
inductive PErr
  | heos
  | generic
deriving Repr, DecidableEq

/-- The `ucapi.StatusCodes` values returned by the command handlers. -/
inductive Status
  | ok
  | server_error
  | not_implemented
deriving Repr, DecidableEq

/-- Python's `str.startswith`, via the character lists underlying the two
strings.  (Lean's own `String.startsWith` works on byte indices, which is
opaque to the kernel; this definition is extensionally the same test.) -/
def starts_with_py (p s : String) : Bool :=
  p.data.isPrefixOf s.data

/-- The remote commands `handle_cmd` dispatches straight to a protocol
call with no intermediate `try/except` (so a raised `HeosError` reaches
`handle_cmd`'s own `except HeosError` arm). -/
def remote_direct_commands : List String :=
  ["PLAY", "PAUSE", "STOP", "PLAY_PAUSE",
   "VOLUME_UP", "VOLUME_DOWN", "MUTE_TOGGLE",
   "NEXT", "PREVIOUS",
   "REPEAT_OFF", "REPEAT_ALL", "REPEAT_ONE",
   "SHUFFLE_ON", "SHUFFLE_OFF"]

/-- `HeosRemote.handle_cmd` (dispatch and status mapping, with the
per-command throttling sleep elided as it has no effect on the returned
status).  `call_result` is the outcome of the underlying protocol call
for the dispatched command.  The direct commands let a `HeosError`
propagate to the handler's `except HeosError` arm, which returns
`SERVER_ERROR` (any other exception hits the `except Exception` arm with
the same status).  The `INPUT_` / grouping / `FAVORITE_` branches call
sub-handlers (`_handle_input_commands`, `_handle_group_all_speakers`,
`_handle_grouping_commands_with_retry`, `_handle_ungroup_command_with_retry`,
`_handle_favorite_command`) whose bodies wrap everything in
`try/except Exception` that only logs, so the error is swallowed and
`handle_cmd` falls through to `return StatusCodes.OK`.  The `SERVICE_`
branch performs no protocol call at all.  Unrecognized commands return
`NOT_IMPLEMENTED`. -/
def remote_handle_cmd (cmd : String) (call_result : Except PErr Unit) : Status :=
  if cmd ∈ remote_direct_commands then
    match call_result with
    | .ok _ => .ok
    | .error _ => .server_error
  else if starts_with_py "INPUT_" cmd then .ok
  else if cmd = "GROUP_ALL_SPEAKERS" then .ok
  else if starts_with_py "GROUP_WITH_" cmd then .ok
  else if cmd = "LEAVE_GROUP" then .ok
  else if starts_with_py "FAVORITE_" cmd then .ok
  else if starts_with_py "SERVICE_" cmd then .ok
  else if cmd = "CLEAR_QUEUE" then
    match call_result with
    | .ok _ => .ok
    | .error _ => .server_error
  else .not_implemented

/-- The media-player command ids `_command_handler` dispatches straight to
a protocol call on the player (the `ucapi` command constants are these
lowercase strings, plus the `turn_on` / `turn_off` aliases accepted by the
source, plus the HEOS-specific `CLEAR_QUEUE` simple command). -/
def media_player_direct_commands : List String :=
  ["on", "turn_on", "off", "turn_off", "stop", "play_pause",
   "next", "previous", "volume_up", "volume_down", "volume",
   "mute_toggle", "mute", "unmute", "repeat", "shuffle", "CLEAR_QUEUE"]

/-- `HeosMediaPlayer._command_handler` (status mapping for the command
paths whose handling is fully present in the source: the direct protocol
calls and `select_source`, whose sub-handler `_handle_select_source`
re-raises every exception).  A raised `HeosError` is caught by the
handler's `except HeosError` arm and mapped to `SERVER_ERROR`; any other
exception is caught by `except Exception` with the same status.
Unrecognized commands return `NOT_IMPLEMENTED`.  The post-command settle
sleep and attribute push on the success path are elided. -/
def media_player_command_handler (cmd : String)
    (call_result : Except PErr Unit) : Status :=
  if cmd ∈ media_player_direct_commands then
    match call_result with
    | .ok _ => .ok
    | .error _ => .server_error
  else if cmd = "select_source" then
    match call_result with
    | .ok _ => .ok
    | .error _ => .server_error
  else .not_implemented

/-! ## Concrete instances used by the theorems below -/

/-- A configured driver state with nothing initialized yet (the state after
`main` loads an existing configuration, before any attempt). -/
def fresh_state : DriverState :=
  { configured := true, entities_ready := false, media_players := [],
    remotes := [], available_entities := [], configured_entities := [],
    coordinator := none }

/-- An attempt that connects, enumerates two players (ids 1 and 2) and
initializes both media players; remote creation fails per player, which is
what the source's `HeosRemote(...)` call always does (`TypeError` on the
unexpected keyword arguments). -/
def two_player_env : InitEnv :=
  { setup_ok := true, players := [1, 2],
    media_init_ok := fun _ => true, remote_create_ok := fun _ => false }

/-- An attempt whose enumeration returns zero players. -/
def zero_player_env : InitEnv :=
  { setup_ok := true, players := [],
    media_init_ok := fun _ => true, remote_create_ok := fun _ => true }

/-- An attempt that connects and enumerates two players, where player 1's
media-player initialization succeeds and player 2's raises mid-loop. -/
def mid_loop_fail_env : InitEnv :=
  { setup_ok := true, players := [1, 2],
    media_init_ok := fun pid => pid == 1, remote_create_ok := fun _ => true }

/-- An attempt whose coordinator setup raises. -/
def failed_setup_env : InitEnv :=
  { setup_ok := false, players := [1],
    media_init_ok := fun _ => true, remote_create_ok := fun _ => true }

/-- A fully successful single-player attempt. -/
def one_player_env : InitEnv :=
  { setup_ok := true, players := [7],
    media_init_ok := fun _ => true, remote_create_ok := fun _ => true }

/-- A coordinator cache holding one previously fetched music source. -/
def stale_music_state : CoordSources :=
  { source_list := ["Spotify"], music_sources := [(1, ⟨"Spotify", true⟩)],
    favorites := [], inputs := [], playlists := [] }

/-- A re-sync in which exactly the music-sources fetch fails and the other
three categories succeed. -/
def music_fail_env : FetchEnv :=
  { signed_in := true, music_res := .error (),
    fav_res := .ok [(1, "Jazz FM")], input_res := .ok ["AUX In"],
    playlist_res := .ok ["Party"] }

/-- `set_group` outcomes: the busy error on the first two attempts, success
on the third — the scenario of the retry claim. -/
def busy_twice_then_ok : Nat → Except GroupErr Unit :=
  fun n => if n < 2 then .error .busy else .ok ()

/-- The capability state of the spec's test vector: 2 inputs, 1 available
service, 3 favorites (signed in), no playlists. -/
def sample_caps : Capabilities :=
  { inputs := [("aux_in", true), ("optical_in", true)],
    supports_favorites := true, favorites_count := 3,
    available_services := ["TuneIn"], playlists_available := false }

/-- Two players: "Living Room" (id 1, the remote's own player) and
"Kitchen" (id 2). -/
def sample_players : List (Nat × String) :=
  [(1, "Living Room"), (2, "Kitchen")]

/-- Same capabilities with 25 favorites, to exercise the 10-favorite cap. -/
def many_favorites_caps : Capabilities :=
  { sample_caps with favorites_count := 25 }

/-! ## Theorems -/

/-- Claim C8.  The claim states that `set_heos_account` fails exactly when
persisting to disk fails and never reports success when the write failed.
The code does the opposite: `_save_config` catches every exception and only
logs it, so here — starting unconfigured with no file on disk and a failing
write — the in-memory credentials are replaced, nothing is persisted
(`disk` stays `none`), and the method still returns `True`, contradicting
its own docstring (": return: True if saved successfully"). -/
theorem set_heos_account_swallows_write_failure :
    set_heos_account "u" "p" "10.0.0.5" false
        { account := none, configured := false } none
      = ({ account := some ⟨"u", "p", "10.0.0.5"⟩, configured := true },
         none, true) := rfl

/-- Claim C9.  When credentials are stored, `update_host` changes only the
host field — username, password and the configured flag are unchanged —
and re-persists the configuration: the file afterwards holds exactly the
updated credentials when the write succeeds, and is untouched when the
atomic write fails. -/
theorem update_host_only_host_and_repersists (a : HeosAccountConfig)
    (new_host : String) (write_ok : Bool) (st : ConfigState) (disk : Disk)
    (h : st.account = some a) :
    (update_host new_host write_ok st disk).1.account
        = some ⟨a.username, a.password, new_host⟩
    ∧ (update_host new_host write_ok st disk).1.configured = st.configured
    ∧ (update_host new_host write_ok st disk).2
        = (if write_ok then some (some ⟨a.username, a.password, new_host⟩)
           else disk) := by
  cases write_ok <;> simp [update_host, h, save_config]

/-- Witness for C9: updating the host of a stored account on concrete
data. -/
theorem update_host_only_host_and_repersists_witness :
    (update_host "10.0.0.9" true
        { account := some ⟨"u", "p", "10.0.0.5"⟩, configured := true }
        (some (some ⟨"u", "p", "10.0.0.5"⟩))).1.account
      = some ⟨"u", "p", "10.0.0.9"⟩
    ∧ (update_host "10.0.0.9" true
        { account := some ⟨"u", "p", "10.0.0.5"⟩, configured := true }
        (some (some ⟨"u", "p", "10.0.0.5"⟩))).1.configured = true
    ∧ (update_host "10.0.0.9" true
        { account := some ⟨"u", "p", "10.0.0.5"⟩, configured := true }
        (some (some ⟨"u", "p", "10.0.0.5"⟩))).2
      = some (some ⟨"u", "p", "10.0.0.9"⟩) := by
  have h := update_host_only_host_and_repersists ⟨"u", "p", "10.0.0.5"⟩
    "10.0.0.9" true
    { account := some ⟨"u", "p", "10.0.0.5"⟩, configured := true }
    (some (some ⟨"u", "p", "10.0.0.5"⟩)) rfl
  exact ⟨h.1, h.2.1, h.2.2⟩

/-- Claim C10.  `get_source_list` returns a fresh copy of the cached source
list: the returned object is a different object than the internal cache,
its contents equal the cache, any caller mutation of the returned object
leaves the cache unchanged, and two successive calls with no intervening
re-sync return equal contents. -/
theorem get_source_list_returns_fresh_copy (σ : ListHeap) (r : Nat)
    (h : r < σ.cells.length) :
    (get_source_list σ r).2 ≠ r
    ∧ read_cell (get_source_list σ r).1 (get_source_list σ r).2
        = read_cell σ r
    ∧ (∀ v, read_cell
          (write_cell (get_source_list σ r).1 (get_source_list σ r).2 v) r
        = read_cell σ r)
    ∧ read_cell (get_source_list (get_source_list σ r).1 r).1
          (get_source_list (get_source_list σ r).1 r).2
        = read_cell (get_source_list σ r).1 (get_source_list σ r).2 := by
  refine ⟨Nat.ne_of_gt h, ?_, ?_, ?_⟩
  · simp [get_source_list, read_cell, List.getD, List.getElem?_concat_length]
  · intro v
    simp only [get_source_list, write_cell, read_cell, List.getD,
      List.get?_eq_getElem?]
    rw [List.getElem?_set_ne (Nat.ne_of_gt h)]
    rw [List.getElem?_append_left h]
  · simp only [get_source_list, read_cell, List.getD,
      List.get?_eq_getElem?]
    rw [List.getElem?_concat_length, List.getElem?_concat_length]
    simp [List.getElem?_append_left h]

/-- Witness for C10 on a one-cell heap. -/
theorem get_source_list_returns_fresh_copy_witness :
    (get_source_list ⟨[["TuneIn", "AUX In"]]⟩ 0).2 ≠ 0
    ∧ read_cell (get_source_list ⟨[["TuneIn", "AUX In"]]⟩ 0).1
          (get_source_list ⟨[["TuneIn", "AUX In"]]⟩ 0).2
        = ["TuneIn", "AUX In"]
    ∧ read_cell
          (write_cell (get_source_list ⟨[["TuneIn", "AUX In"]]⟩ 0).1
            (get_source_list ⟨[["TuneIn", "AUX In"]]⟩ 0).2 []) 0
        = ["TuneIn", "AUX In"] := by
  have h := get_source_list_returns_fresh_copy ⟨[["TuneIn", "AUX In"]]⟩ 0
    (by decide)
  exact ⟨h.1, h.2.1, h.2.2.1 []⟩

/-- Counterexample to claim C4 as stated: when the music-sources fetch is
the one category that fails (and the other three succeed), the
music-sources cache is not left empty — the `except` arm for music sources
only logs, so the previously cached entry survives the re-sync. -/
theorem update_sources_music_failure_keeps_stale_cache :
    (async_update_sources music_fail_env stale_music_state).music_sources
        = [(1, ⟨"Spotify", true⟩)]
    ∧ (async_update_sources music_fail_env stale_music_state).music_sources
        ≠ [] := by
  constructor
  · rfl
  · decide

/-- Claim C4 (amended).  Each category's resulting cache depends only on
its own fetch outcome, so a failure in one category never disturbs the
others: a failed favorites fetch (when signed in), inputs fetch or
playlists fetch resets exactly that cache to empty, while a failed
music-sources fetch leaves the previous music-sources cache unchanged
(rather than empty, as the claim stated); a successful fetch replaces the
cache with the fetched data.  The load as a whole never raises — every
branch of the source is inside a logging `try/except`, which is why the
model is a total function. -/
theorem update_sources_per_category_isolation (env : FetchEnv)
    (st : CoordSources) :
    (async_update_sources env st).music_sources
        = (match env.music_res with
           | .ok ms => ms
           | .error _ => st.music_sources)
    ∧ (async_update_sources env st).favorites
        = (if env.signed_in then
             match env.fav_res with
             | .ok fs => fs
             | .error _ => []
           else st.favorites)
    ∧ (async_update_sources env st).inputs
        = (match env.input_res with
           | .ok l => l
           | .error _ => [])
    ∧ (async_update_sources env st).playlists
        = (match env.playlist_res with
           | .ok l => l
           | .error _ => []) := by
  obtain ⟨si, mr, fr, ir, pr⟩ := env
  cases mr <;> cases si <;> cases fr <;> cases ir <;> cases pr <;>
    simp [async_update_sources]

/-- Claim C5.  The claim (and the function's own name) promise up to 3
attempts with 1s/2s/3s backoff on the "processing previous command" busy
error, so that a call raising that error exactly twice then succeeding
reports success.  The code performs exactly one `set_group` call, sleeps
never, and swallows the error: on the busy-busy-ok outcome schedule the
trace shows one call, no backoff and no success. -/
theorem grouping_retry_absent :
    (busy_twice_then_ok 0 = .error .busy
      ∧ busy_twice_then_ok 1 = .error .busy
      ∧ busy_twice_then_ok 2 = .ok ())
    ∧ handle_grouping_commands_with_retry "KITCHEN" 1 sample_players
        busy_twice_then_ok
      = { set_group_calls := 1, sleeps := [], succeeded := false } := by
  exact ⟨⟨rfl, rfl, rfl⟩, by decide⟩

/-- Claim C6.  First conjunct: for every capability state the command list
has exactly one entry per available input, one per available service,
`min(favorites, 10)` favorite entries when signed in with favorites, and —
only with more than one player — two group commands plus one per other
player, on top of the 14 base and 2 queue commands.  Second conjunct: on
the spec's test vector {2 inputs, 1 available service, 3 favorites,
2 players} the list is exactly the expected one, with no extras.  Third
conjunct: with 25 favorites, exactly 10 favorite commands are generated —
`FAVORITE_10` is present and `FAVORITE_11` is not. -/
theorem build_dynamic_simple_commands_spec :
    (∀ (self_pid : Nat) (caps : Capabilities)
        (all_players : List (Nat × String)),
      (build_dynamic_simple_commands self_pid caps all_players).length
        = 14 + (caps.inputs.filter (fun p => p.2)).length
          + (if all_players.length > 1
             then 2 + (all_players.filter (fun q => q.1 ≠ self_pid)).length
             else 0)
          + (if caps.supports_favorites ∧ 0 < caps.favorites_count
             then min caps.favorites_count 10 else 0)
          + caps.available_services.length
          + (if caps.playlists_available then 1 else 0) + 2)
    ∧ build_dynamic_simple_commands 1 sample_caps sample_players
        = ["PLAY", "PAUSE", "STOP", "PLAY_PAUSE",
           "VOLUME_UP", "VOLUME_DOWN", "MUTE_TOGGLE",
           "NEXT", "PREVIOUS",
           "REPEAT_OFF", "REPEAT_ALL", "REPEAT_ONE",
           "SHUFFLE_ON", "SHUFFLE_OFF",
           "INPUT_AUX_IN", "INPUT_OPTICAL_IN",
           "LEAVE_GROUP", "GROUP_ALL_SPEAKERS", "GROUP_WITH_KITCHEN",
           "FAVORITE_1", "FAVORITE_2", "FAVORITE_3",
           "SERVICE_TUNEIN",
           "CLEAR_QUEUE", "QUEUE_INFO"]
    ∧ ((build_dynamic_simple_commands 1 many_favorites_caps sample_players).countP
          (fun c => starts_with_py "FAVORITE_" c) = 10
        ∧ "FAVORITE_10"
            ∈ build_dynamic_simple_commands 1 many_favorites_caps sample_players
        ∧ "FAVORITE_11"
            ∉ build_dynamic_simple_commands 1 many_favorites_caps sample_players) := by
  refine ⟨?_, by decide, by decide, by decide, by decide⟩
  intro self_pid caps all_players
  simp only [build_dynamic_simple_commands, List.length_append,
    List.length_map, List.length_range']
  split_ifs <;> simp [List.length_map] <;> omega

/-- A successful run of `_initialize_entities` always ends with the
readiness flag set. -/
theorem ready_of_ok (env : InitEnv) (s : DriverState)
    (h : (initialize_entities env s).2 = .ok) :
    (initialize_entities env s).1.entities_ready = true := by
  simp only [initialize_entities] at h ⊢
  split at h
  · simp_all
  · split at h
    · simp_all
    · split at h
      · simp_all
      · split at h
        · simp_all
        · split at h <;> simp_all

/-- Claim C1.  The readiness ordering invariant fails on the code: in an
attempt that enumerates two players and registers both Player entities,
every per-player remote-creation block fails (in the source the
`HeosRemote(...)` call raises `TypeError` on its unexpected keyword
arguments) and `_create_intelligent_remotes` swallows the failure, so the
readiness flag is set to true with the Player entities registered but no
Remote entity registered for either player. -/
theorem readiness_set_without_remotes :
    (initialize_entities two_player_env fresh_state).2 = .ok
    ∧ (initialize_entities two_player_env fresh_state).1.entities_ready = true
    ∧ (initialize_entities two_player_env fresh_state).1.media_players = [1, 2]
    ∧ (initialize_entities two_player_env fresh_state).1.remotes = []
    ∧ two_player_env.players.length = 2 := by
  decide

/-- Claim C2.  Once an invocation of `_initialize_entities` has completed
successfully, any later (or, thanks to the initialization mutex,
concurrent-but-serialized) invocation finds the readiness flag set and
returns early without touching the state: exactly one set of entities
exists afterwards. -/
theorem initialize_entities_idempotent (env env2 : InitEnv) (s : DriverState)
    (h : (initialize_entities env s).2 = .ok) :
    initialize_entities env2 (initialize_entities env s).1
      = ((initialize_entities env s).1, .skipped_ready) := by
  have hready := ready_of_ok env s h
  rw [initialize_entities, if_pos hready]

/-- Witness for C2: a successful one-player attempt followed by a second
invocation, which changes nothing. -/
theorem initialize_entities_idempotent_witness :
    initialize_entities two_player_env
        (initialize_entities one_player_env fresh_state).1
      = ((initialize_entities one_player_env fresh_state).1,
         .skipped_ready) := by
  exact initialize_entities_idempotent one_player_env two_player_env
    fresh_state (by decide)

/-- Counterexample to claim C3 as stated, in both of its failing parts.
First: when enumeration returns zero players the attempt is a terminal
failure (readiness flag false, no entities), but the code takes an early
`return` rather than the `except` branch, so the Coordinator created
during the attempt is neither shut down nor discarded.  Second: an attempt
in which player 1's media-player initialization succeeds and player 2's
raises does take the `except` branch (flag false, Coordinator discarded),
but the `except` clause never removes the entities registered earlier in
the loop — player 1 stays in `_media_players`, `api.available_entities`
and `api.configured_entities`, so a half-registered entity set remains. -/
theorem failed_attempts_leave_partial_state :
    ((initialize_entities zero_player_env fresh_state).2 = .no_players
      ∧ (initialize_entities zero_player_env fresh_state).1.entities_ready
          = false
      ∧ (initialize_entities zero_player_env fresh_state).1.coordinator
          = some ()
      ∧ (initialize_entities zero_player_env fresh_state).1.coordinator
          ≠ none)
    ∧ ((initialize_entities mid_loop_fail_env fresh_state).2 = .raised
      ∧ (initialize_entities mid_loop_fail_env fresh_state).1.entities_ready
          = false
      ∧ (initialize_entities mid_loop_fail_env fresh_state).1.coordinator
          = none
      ∧ (initialize_entities mid_loop_fail_env fresh_state).1.media_players
          = [1]
      ∧ (initialize_entities mid_loop_fail_env
            fresh_state).1.available_entities = [.media 1]
      ∧ (initialize_entities mid_loop_fail_env
            fresh_state).1.configured_entities = [.media 1]
      ∧ (initialize_entities mid_loop_fail_env fresh_state).1.media_players
          ≠ []) := by
  decide

/-- When the media-player loop aborts with a raise, the entities it had
already registered stay in the state: exactly the prefix of players whose
initialization succeeded before the first failure. -/
theorem register_error_residue (env : InitEnv) :
    ∀ (ps : List Nat) (s s' : DriverState),
      register_media_players env ps s = .error s' →
      s'.media_players = s.media_players ++ ps.takeWhile env.media_init_ok
      ∧ s'.available_entities
          = s.available_entities
            ++ (ps.takeWhile env.media_init_ok).map EntityRef.media
      ∧ s'.configured_entities
          = s.configured_entities
            ++ (ps.takeWhile env.media_init_ok).map EntityRef.media := by
  intro ps
  induction ps with
  | nil =>
    intro s s' h
    simp [register_media_players] at h
  | cons pid rest ih =>
    intro s s' h
    simp only [register_media_players] at h
    by_cases hok : env.media_init_ok pid
    · rw [if_pos hok] at h
      obtain ⟨hm, ha, hc⟩ := ih _ _ h
      simp only [hm, ha, hc, List.takeWhile_cons, hok, if_true, reduceIte,
        List.map_cons, List.append_assoc, List.cons_append, List.nil_append]
      simp [hok]
    · rw [if_neg hok] at h
      obtain rfl : s = s' := by
        simpa using h
      simp [List.takeWhile_cons, hok]

/-- Claim C3 (amended).  An initialization attempt that fails with an
exception (coordinator setup failure, or a media-player initialization
failure) leaves the readiness flag false and the Coordinator shut down and
discarded, but it does not remove the entities already registered during
the attempt: exactly the players whose initialization succeeded before the
failure remain in `_media_players` and in the host platform's available
and configured collections (empty when the setup itself failed; the
collections are cleared again only at the start of the next attempt, and
`api.configured_entities` is never cleared by an attempt at all).  An
attempt that fails because enumeration returned zero players also leaves
the readiness flag false and has registered no entities, but keeps the
Coordinator alive (not shut down or discarded). -/
theorem initialize_entities_failure_rollback (env : InitEnv)
    (s : DriverState) :
    ((initialize_entities env s).2 = .raised →
        (initialize_entities env s).1.entities_ready = false
        ∧ (initialize_entities env s).1.coordinator = none
        ∧ (initialize_entities env s).1.media_players
            = (if env.setup_ok
               then env.players.takeWhile env.media_init_ok else [])
        ∧ (initialize_entities env s).1.available_entities
            = (if env.setup_ok
               then (env.players.takeWhile env.media_init_ok).map
                      EntityRef.media
               else [])
        ∧ (initialize_entities env s).1.configured_entities
            = s.configured_entities
              ++ (if env.setup_ok
                  then (env.players.takeWhile env.media_init_ok).map
                         EntityRef.media
                  else []))
    ∧ ((initialize_entities env s).2 = .no_players →
        (initialize_entities env s).1.entities_ready = false
        ∧ (initialize_entities env s).1.coordinator = some ()
        ∧ (initialize_entities env s).1.media_players = []
        ∧ (initialize_entities env s).1.available_entities = []) := by
  cases hr : s.entities_ready with
  | true => simp [initialize_entities, hr]
  | false =>
    cases hcfg : s.configured with
    | false => simp [initialize_entities, hr, hcfg]
    | true =>
      cases hs : env.setup_ok with
      | false => simp [initialize_entities, hr, hcfg, hs]
      | true =>
        cases hemp : env.players.isEmpty with
        | true => simp [initialize_entities, hr, hcfg, hs, hemp]
        | false =>
          cases hreg : register_media_players env env.players
              { configured := true, entities_ready := false,
                media_players := [], remotes := [],
                available_entities := [],
                configured_entities := s.configured_entities,
                coordinator := some () } with
          | error s2 =>
            have hres := register_error_residue env env.players _ s2 hreg
            simp [initialize_entities, hr, hcfg, hs, hemp, hreg,
              hres.1, hres.2.1, hres.2.2]
          | ok s2 =>
            simp [initialize_entities, hr, hcfg, hs, hemp, hreg]

/-- Witness for C3 (amended): a failed-setup attempt rolls back with empty
collections; a mid-loop failure at player 2 of {1, 2} rolls back the flag
and the coordinator but leaves player 1 registered; a zero-player attempt
keeps the coordinator and registers nothing. -/
theorem initialize_entities_failure_rollback_witness :
    ((initialize_entities failed_setup_env fresh_state).1.entities_ready
        = false
      ∧ (initialize_entities failed_setup_env fresh_state).1.coordinator
        = none)
    ∧ ((initialize_entities mid_loop_fail_env fresh_state).1.media_players
        = [1]
      ∧ (initialize_entities mid_loop_fail_env fresh_state).1.coordinator
        = none)
    ∧ ((initialize_entities zero_player_env fresh_state).1.entities_ready
        = false
      ∧ (initialize_entities zero_player_env fresh_state).1.coordinator
        = some ()
      ∧ (initialize_entities zero_player_env fresh_state).1.media_players
        = []) := by
  have h1 := (initialize_entities_failure_rollback failed_setup_env
    fresh_state).1 (by decide)
  have h2 := (initialize_entities_failure_rollback mid_loop_fail_env
    fresh_state).1 (by decide)
  have h3 := (initialize_entities_failure_rollback zero_player_env
    fresh_state).2 (by decide)
  refine ⟨⟨h1.1, h1.2.1⟩, ⟨?_, h2.2.1⟩, h3.1, h3.2.1, h3.2.2.1⟩
  exact h2.2.2.1.trans (by decide)

/-- A command that starts with `p` is none of the literals `p` does not
lead. -/
theorem ne_of_pre {p cmd lit : String}
    (hp : starts_with_py p cmd = true) (hnot : ¬ p.data <+: lit.data) :
    cmd ≠ lit := by
  intro he
  subst he
  exact hnot (List.isPrefixOf_iff_prefix.mp hp)

/-- A command that starts with `p` is not in a command list none of whose
entries `p` leads. -/
theorem not_mem_of_pre {p cmd : String} {L : List String}
    (hp : starts_with_py p cmd = true)
    (hall : ∀ lit ∈ L, ¬ p.data <+: lit.data) :
    cmd ∉ L := fun hm =>
  hall cmd hm (List.isPrefixOf_iff_prefix.mp hp)

/-- Two incomparable literal prefixes cannot both lead the same command. -/
theorem pre_exclusive {p q : String} (cmd : String)
    (hp : starts_with_py p cmd = true)
    (hpq : ¬ p.data <+: q.data) (hqp : ¬ q.data <+: p.data) :
    starts_with_py q cmd = false := by
  by_contra hb
  have hq : q.data <+: cmd.data := by
    have : starts_with_py q cmd = true := by
      cases hs : starts_with_py q cmd
      · exact absurd hs hb
      · rfl
    exact List.isPrefixOf_iff_prefix.mp this
  have hp' : p.data <+: cmd.data := List.isPrefixOf_iff_prefix.mp hp
  rcases Nat.le_total q.data.length p.data.length with hle | hle
  · exact hqp (List.prefix_of_prefix_length_le hq hp' hle)
  · exact hpq (List.prefix_of_prefix_length_le hp' hq hle)

/-- Counterexample to claim C7 as stated: an `INPUT_` command whose
underlying `play_input_source` call raises a protocol-level `HeosError` is
swallowed inside `_handle_input_commands`, so `handle_cmd` returns `OK`
to the host platform, not a server-error status. -/
theorem input_command_error_returns_ok :
    remote_handle_cmd "INPUT_AUX" (.error .heos) = .ok
    ∧ Status.ok ≠ Status.server_error := by
  decide

/-- Claim C7 (amended).  The media-player handler (direct commands and
`select_source`, whose sub-handler re-raises) and the Remote's direct
playback/volume/navigation/repeat/shuffle commands map a protocol-level
failure of the underlying call to a server-error status.  The Remote's
`INPUT_`, `GROUP_WITH_`, `FAVORITE_`, `GROUP_ALL_SPEAKERS` and
`LEAVE_GROUP` branches instead swallow the protocol error inside their
sub-handlers and return `OK`. -/
theorem command_error_status_mapping (cmd : String) (e : PErr) :
    (cmd ∈ remote_direct_commands →
        remote_handle_cmd cmd (.error e) = .server_error)
    ∧ ((cmd ∈ media_player_direct_commands ∨ cmd = "select_source") →
        media_player_command_handler cmd (.error e) = .server_error)
    ∧ (starts_with_py "INPUT_" cmd = true →
        remote_handle_cmd cmd (.error e) = .ok)
    ∧ (starts_with_py "GROUP_WITH_" cmd = true →
        remote_handle_cmd cmd (.error e) = .ok)
    ∧ (starts_with_py "FAVORITE_" cmd = true →
        remote_handle_cmd cmd (.error e) = .ok)
    ∧ remote_handle_cmd "GROUP_ALL_SPEAKERS" (.error e) = .ok
    ∧ remote_handle_cmd "LEAVE_GROUP" (.error e) = .ok := by
  refine ⟨?_, ?_, ?_, ?_, ?_, rfl, rfl⟩
  · intro hmem
    simp only [remote_direct_commands, List.mem_cons,
      List.not_mem_nil, or_false] at hmem
    rcases hmem with rfl | rfl | rfl | rfl | rfl | rfl | rfl | rfl | rfl |
      rfl | rfl | rfl | rfl | rfl <;> rfl
  · intro hmem
    rcases hmem with hmem | rfl
    · simp only [media_player_direct_commands, List.mem_cons,
        List.not_mem_nil, or_false] at hmem
      rcases hmem with rfl | rfl | rfl | rfl | rfl | rfl | rfl | rfl | rfl |
        rfl | rfl | rfl | rfl | rfl | rfl | rfl | rfl <;> rfl
    · rfl
  · intro hp
    have h1 : cmd ∉ remote_direct_commands := not_mem_of_pre hp (by decide)
    simp [remote_handle_cmd, h1, hp]
  · intro hp
    have h1 : cmd ∉ remote_direct_commands := not_mem_of_pre hp (by decide)
    have h2 : starts_with_py "INPUT_" cmd = false :=
      pre_exclusive cmd hp (by decide) (by decide)
    have h3 : cmd ≠ "GROUP_ALL_SPEAKERS" := ne_of_pre hp (by decide)
    simp [remote_handle_cmd, h1, h2, h3, hp]
  · intro hp
    have h1 : cmd ∉ remote_direct_commands := not_mem_of_pre hp (by decide)
    have h2 : starts_with_py "INPUT_" cmd = false :=
      pre_exclusive cmd hp (by decide) (by decide)
    have h3 : cmd ≠ "GROUP_ALL_SPEAKERS" := ne_of_pre hp (by decide)
    have h4 : starts_with_py "GROUP_WITH_" cmd = false :=
      pre_exclusive cmd hp (by decide) (by decide)
    have h5 : cmd ≠ "LEAVE_GROUP" := ne_of_pre hp (by decide)
    simp [remote_handle_cmd, h1, h2, h3, h4, h5, hp]

/-- Witness for C7 (amended) on concrete commands: a failing `PLAY` on the
Remote and a failing `volume` / `select_source` on the media player give
server-error; a failing `INPUT_AUX1` and `GROUP_WITH_KITCHEN` give `OK`. -/
theorem command_error_status_mapping_witness :
    remote_handle_cmd "PLAY" (.error .heos) = .server_error
    ∧ media_player_command_handler "volume" (.error .heos) = .server_error
    ∧ media_player_command_handler "select_source" (.error .heos)
        = .server_error
    ∧ remote_handle_cmd "INPUT_AUX1" (.error .heos) = .ok
    ∧ remote_handle_cmd "GROUP_WITH_KITCHEN" (.error .heos) = .ok
    ∧ remote_handle_cmd "FAVORITE_3" (.error .heos) = .ok := by
  refine ⟨(command_error_status_mapping "PLAY" .heos).1 (by decide),
    (command_error_status_mapping "volume" .heos).2.1 (Or.inl (by decide)),
    (command_error_status_mapping "select_source" .heos).2.1 (Or.inr rfl),
    (command_error_status_mapping "INPUT_AUX1" .heos).2.2.1 (by decide),
    (command_error_status_mapping "GROUP_WITH_KITCHEN" .heos).2.2.2.1
      (by decide),
    (command_error_status_mapping "FAVORITE_3" .heos).2.2.2.2.1 (by decide)⟩

end HeosSpec
